import Mathlib

/-!
Shallow embedding of the AWS profile core of s3-browser
(`src/s3/credentials.rs`): profile records, profile-type classification,
validation (SSO field checks, assume-role chain walks with cycle
detection), and the INI-style parsing of the config and credentials
files, together with `load_profiles` and `reload`.

Modelling conventions:
- the in-memory `HashMap<String, AwsProfile>` is an association list
  with unique keys; `get` is `List.lookup`, `insert` replaces in place
  or appends, `entry(..).or_insert_with` inserts only when absent,
  `get_mut` plus a field write is a key-preserving map;
- Rust strings are `String`; the per-character work of the parsers
  (`trim`, `starts_with`, `split_once`, slicing) is done on `List Char`
  with structural recursion so that everything evaluates by `decide`;
  `Char.isWhitespace` agrees with Rust `char::is_whitespace` on the
  ASCII content these files carry;
- `content.lines()` is modelled by splitting on the newline character;
  the only differences (a possible trailing empty segment, a kept
  carriage return) are erased by the skip-empty-line test and the
  immediate `trim` the source applies to every line;
- the unbounded Rust `loop` of `validate_assume_role_chain` is given
  explicit fuel; fuel `reg.length + 1` is proved sufficient, so the
  fuelled function at that fuel is the loop's exact behaviour;
- file reads: each of the two files is either absent (the `exists()`
  test fails), unreadable (`read_to_string` returns `Err`, which `?`
  propagates with the added context message), or read as a content
  string; an error outcome of `load_profiles` is the `Option String`
  in the returned pair, alongside the registry state left behind.
-/

/-- Credential-resolution variant of a profile (`ProfileType` in the source). -/
inductive ProfileType where
  | StaticCredentials
  | AssumeRole
  | Sso
  | Environment
  | Default
  | Unknown
  deriving DecidableEq

/-- One AWS profile record (`AwsProfile` in the source). -/
structure AwsProfile where
  name : String
  profile_type : ProfileType
  region : Option String
  source_profile : Option String
  role_arn : Option String
  sso_start_url : Option String
  sso_region : Option String
  sso_account_id : Option String
  sso_role_name : Option String
  sso_session : Option String
  external_id : Option String
  mfa_serial : Option String
  role_session_name : Option String
  credential_source : Option String
  has_static_credentials : Bool
  is_valid : Bool
  error_message : Option String
  deriving DecidableEq

/-- `Default::default()` for `AwsProfile`: every field empty,
`profile_type = Unknown`, `is_valid = true`. -/
def defaultAwsProfile : AwsProfile :=
  { name := ""
    profile_type := ProfileType.Unknown
    region := none
    source_profile := none
    role_arn := none
    sso_start_url := none
    sso_region := none
    sso_account_id := none
    sso_role_name := none
    sso_session := none
    external_id := none
    mfa_serial := none
    role_session_name := none
    credential_source := none
    has_static_credentials := false
    is_valid := true
    error_message := none }

/-- The profile registry: `HashMap<String, AwsProfile>` as an association
list with unique keys. -/
abbrev Registry := List (String × AwsProfile)

/-- `HashMap::insert`: replace the binding in place when the key is
present, otherwise append it. -/
def Registry.insert (reg : Registry) (n : String) (p : AwsProfile) : Registry :=
  if (List.lookup n reg).isSome then
    reg.map (fun e => if e.1 == n then (e.1, p) else e)
  else
    reg ++ [(n, p)]

/-- `HashMap::entry(n).or_insert_with(..)`: create the record only when
the key is absent. -/
def Registry.insertIfAbsent (reg : Registry) (n : String) (p : AwsProfile) : Registry :=
  if (List.lookup n reg).isSome then reg else reg ++ [(n, p)]

/-- `HashMap::get_mut(n)` followed by a field write; a no-op when `n` is
absent, exactly like the source's `if let Some(profile) = ... get_mut`. -/
def Registry.update (reg : Registry) (n : String) (f : AwsProfile → AwsProfile) : Registry :=
  reg.map (fun e => if e.1 == n then (e.1, f e.2) else e)

/-- `determine_profile_type`: classify a profile by the fixed precedence
order of the source (SSO, then assume-role, then static credentials,
then environment, then the literal name `default`, then `Unknown`). -/
def determine_profile_type (reg : Registry) (name : String) : ProfileType :=
  match List.lookup name reg with
  | none => ProfileType.Unknown
  | some profile =>
    if profile.sso_start_url.isSome || profile.sso_session.isSome
        || (profile.sso_account_id.isSome && profile.sso_role_name.isSome) then
      ProfileType.Sso
    else if profile.role_arn.isSome then
      ProfileType.AssumeRole
    else if profile.has_static_credentials then
      ProfileType.StaticCredentials
    else if profile.credential_source.isSome then
      ProfileType.Environment
    else if name == "default" then
      ProfileType.Default
    else
      ProfileType.Unknown

/-- The list of missing legacy SSO fields, in the order the source pushes
them onto `missing`. -/
def ssoMissingFields (profile : AwsProfile) : List String :=
  (if profile.sso_start_url.isNone then ["sso_start_url"] else [])
    ++ (if profile.sso_region.isNone then ["sso_region"] else [])
    ++ (if profile.sso_account_id.isNone then ["sso_account_id"] else [])
    ++ (if profile.sso_role_name.isNone then ["sso_role_name"] else [])

/-- `validate_sso_profile`: with `sso_session` set, require
`sso_account_id` then `sso_role_name` (each missing field reported by an
early return); without it, collect every missing legacy field and join
the names with a comma. -/
def validate_sso_profile (profile : AwsProfile) : Bool × Option String :=
  if profile.sso_session.isSome then
    if profile.sso_account_id.isNone then
      (false, some "SSO profile missing sso_account_id")
    else if profile.sso_role_name.isNone then
      (false, some "SSO profile missing sso_role_name")
    else
      (true, none)
  else
    if (ssoMissingFields profile).isEmpty then
      (true, none)
    else
      (false, some ("SSO profile missing: "
        ++ String.intercalate ", " (ssoMissingFields profile)))

/-- Fuelled form of the source's unbounded `loop` in
`validate_assume_role_chain`; `none` means the fuel ran out, which is
proved unreachable for fuel exceeding the number of registry entries not
yet visited. -/
def validate_assume_role_chain_fuel (reg : Registry) :
    Nat → List String → String → Option (Except String Unit)
  | 0, _, _ => none
  | fuel + 1, visited, current =>
    if visited.contains current then
      some (Except.error ("Circular dependency in assume-role chain: "
        ++ String.intercalate " -> " visited ++ " -> " ++ current))
    else
      match List.lookup current reg with
      | none => some (Except.error ("Source profile \x27" ++ current ++ "\x27 not found"))
      | some profile =>
        if profile.has_static_credentials then
          some (Except.ok ())
        else if profile.profile_type == ProfileType.Sso then
          some (Except.ok ())
        else if profile.credential_source.isSome then
          some (Except.ok ())
        else if current == "default" then
          some (Except.ok ())
        else
          match profile.source_profile with
          | some next => validate_assume_role_chain_fuel reg fuel (visited ++ [current]) next
          | none => some (Except.ok ())

/-- `validate_assume_role_chain`: the loop starting from
`visited = [start]`, `current = source`; fuel `reg.length + 1` is proved
sufficient, so the default of `getD` is never used. -/
def validate_assume_role_chain (reg : Registry) (start source : String) :
    Except String Unit :=
  (validate_assume_role_chain_fuel reg (reg.length + 1) [start] source).getD (Except.ok ())

/-- `validate_assume_role_profile`: require `role_arn`, then
`source_profile` or `credential_source`; walk the chain when a
`source_profile` is given. -/
def validate_assume_role_profile (reg : Registry) (profile : AwsProfile) :
    Bool × Option String :=
  if profile.role_arn.isNone then
    (false, some "Assume-role profile missing role_arn")
  else if profile.source_profile.isNone && profile.credential_source.isNone then
    (false, some "Assume-role profile needs source_profile or credential_source")
  else
    match profile.source_profile with
    | some source =>
      match validate_assume_role_chain reg profile.name source with
      | Except.ok _ => (true, none)
      | Except.error e => (false, some e)
    | none => (true, none)

/-- `validate_profile`: dispatch on the assigned profile type and return
the `(is_valid, error_message)` pair. -/
def validate_profile (reg : Registry) (name : String) : Bool × Option String :=
  match List.lookup name reg with
  | none => (false, some "Profile not found")
  | some profile =>
    match profile.profile_type with
    | ProfileType.Sso => validate_sso_profile profile
    | ProfileType.AssumeRole => validate_assume_role_profile reg profile
    | ProfileType.StaticCredentials => (true, none)
    | ProfileType.Environment => (true, none)
    | ProfileType.Default => (true, none)
    | ProfileType.Unknown =>
      (true, some "Profile type could not be determined - may use environment or instance credentials")

/-- First pass of `validate_all_profiles`: write every profile's type.
The source mutates the map inside the loop, but `determine_profile_type`
never reads `profile_type`, so writing from the untouched registry is
the same function. -/
def setTypes (reg : Registry) : Registry :=
  reg.map (fun e => (e.1, { e.2 with profile_type := determine_profile_type reg e.1 }))

/-- Second pass of `validate_all_profiles`: write every profile's
validity. The loop only writes `is_valid`/`error_message`, fields
`validate_profile` never reads, so writing from the typed registry is
the same function. -/
def setValidity (reg : Registry) : Registry :=
  reg.map (fun e =>
    (e.1, { e.2 with
              is_valid := (validate_profile reg e.1).1
              error_message := (validate_profile reg e.1).2 }))

/-- `validate_all_profiles`: classify every profile, then validate every
profile against the fully classified registry. -/
def validate_all_profiles (reg : Registry) : Registry :=
  setValidity (setTypes reg)

/-- Rust `str::trim` on the character list: drop leading whitespace. -/
def dropLeadingWs : List Char → List Char
  | [] => []
  | a :: rest => if a.isWhitespace then dropLeadingWs rest else a :: rest

/-- Rust `str::trim`: strip whitespace from both ends. -/
def trimChars (l : List Char) : List Char :=
  (dropLeadingWs ((dropLeadingWs l).reverse)).reverse

/-- Rust `str::split_once(c)`: split at the first occurrence of `c`,
`none` when `c` does not occur. -/
def splitOnceChar (c : Char) : List Char → Option (List Char × List Char)
  | [] => none
  | a :: rest =>
    if a == c then some ([], rest)
    else
      match splitOnceChar c rest with
      | some pr => some (a :: pr.1, pr.2)
      | none => none

/-- Rust `str::lines`: split the content on the newline character. -/
def splitAllChar (c : Char) : List Char → List (List Char)
  | [] => [[]]
  | a :: rest =>
    if a == c then [] :: splitAllChar c rest
    else
      match splitAllChar c rest with
      | [] => [[a]]
      | x :: xs => (a :: x) :: xs

/-- The `match key` of `parse_config_file`: write a recognized key's
value onto the profile record, ignore any other key. -/
def configApplyKey (key value : String) (p : AwsProfile) : AwsProfile :=
  if key == "region" then { p with region := some value }
  else if key == "source_profile" then { p with source_profile := some value }
  else if key == "role_arn" then { p with role_arn := some value }
  else if key == "sso_start_url" then { p with sso_start_url := some value }
  else if key == "sso_region" then { p with sso_region := some value }
  else if key == "sso_account_id" then { p with sso_account_id := some value }
  else if key == "sso_role_name" then { p with sso_role_name := some value }
  else if key == "sso_session" then { p with sso_session := some value }
  else if key == "external_id" then { p with external_id := some value }
  else if key == "mfa_serial" then { p with mfa_serial := some value }
  else if key == "role_session_name" then { p with role_session_name := some value }
  else if key == "credential_source" then { p with credential_source := some value }
  else p

/-- Is the trimmed line skipped (empty, `#` comment, `;` comment)? -/
def isSkippedLine (line : List Char) : Bool :=
  line.isEmpty || List.isPrefixOf ("#".toList) line || List.isPrefixOf (";".toList) line

/-- Is the trimmed line a section header (`[` first, `]` last)? -/
def isHeaderLine (line : List Char) : Bool :=
  line.head? == some (Char.ofNat 91) && line.getLast? == some (Char.ofNat 93)

/-- The config parser's section-header rule: `[default]` selects
`default`, `[profile NAME]` selects the trimmed `NAME`, an `sso-session`
header and any other header select no profile. -/
def configSectionName (sec : List Char) : Option String :=
  if sec == "default".toList then some "default"
  else if List.isPrefixOf ("profile ".toList) sec then
    some (trimChars (sec.drop 8)).asString
  else if List.isPrefixOf ("sso-session ".toList) sec then
    none
  else
    none

/-- The per-line loop of `parse_config_file`; the state is the selected
profile name (`current_profile`). -/
def parse_config_lines (reg : Registry) (current : Option String) :
    List (List Char) → Registry
  | [] => reg
  | l :: rest =>
    if isSkippedLine (trimChars l) then
      parse_config_lines reg current rest
    else if isHeaderLine (trimChars l) then
      match configSectionName (((trimChars l).drop 1).dropLast) with
      | some name =>
        parse_config_lines
          (Registry.insertIfAbsent reg name { defaultAwsProfile with name := name })
          (some name) rest
      | none => parse_config_lines reg none rest
    else
      match splitOnceChar (Char.ofNat 61) (trimChars l) with
      | some kv =>
        match current with
        | some profileName =>
          parse_config_lines
            (Registry.update reg profileName
              (configApplyKey ((trimChars kv.1).asString) ((trimChars kv.2).asString)))
            current rest
        | none => parse_config_lines reg current rest
      | none => parse_config_lines reg current rest

/-- `parse_config_file` on already-read file content. -/
def parse_config_file (reg : Registry) (content : String) : Registry :=
  parse_config_lines reg none (splitAllChar (Char.ofNat 10) content.toList)

/-- The finalization step of `parse_credentials_file`: when a section
was open and both key names were seen, set `has_static_credentials` on
that profile. -/
def credFinalize (reg : Registry) (current : Option String)
    (hak hsk : Bool) : Registry :=
  match current with
  | some name =>
    if hak && hsk then
      Registry.update reg name (fun p => { p with has_static_credentials := true })
    else reg
  | none => reg

/-- The per-line loop of `parse_credentials_file`; the state is the open
section (trimmed name) and the two seen-key flags. A header finalizes
the previous section, then creates the record under the untrimmed
bracket content, exactly as the source does. -/
def parse_credentials_lines (reg : Registry) (current : Option String)
    (hak hsk : Bool) : List (List Char) → Registry
  | [] => credFinalize reg current hak hsk
  | l :: rest =>
    if isSkippedLine (trimChars l) then
      parse_credentials_lines reg current hak hsk rest
    else if isHeaderLine (trimChars l) then
      parse_credentials_lines
        (Registry.insertIfAbsent (credFinalize reg current hak hsk)
          (((trimChars l).drop 1).dropLast).asString
          { defaultAwsProfile with name := (((trimChars l).drop 1).dropLast).asString })
        (some (trimChars (((trimChars l).drop 1).dropLast)).asString) false false rest
    else
      match splitOnceChar (Char.ofNat 61) (trimChars l) with
      | some kv =>
        if (trimChars kv.1).asString == "aws_access_key_id" then
          parse_credentials_lines reg current true hsk rest
        else if (trimChars kv.1).asString == "aws_secret_access_key" then
          parse_credentials_lines reg current hak true rest
        else
          parse_credentials_lines reg current hak hsk rest
      | none => parse_credentials_lines reg current hak hsk rest

/-- `parse_credentials_file` on already-read file content. -/
def parse_credentials_file (reg : Registry) (content : String) : Registry :=
  parse_credentials_lines reg none false false (splitAllChar (Char.ofNat 10) content.toList)

/-- Possible states of one of the two configuration files. -/
inductive FileInput where
  | absent
  | unreadable
  | content (s : String)

/-- `load_profiles`: unconditionally insert the `default` record, then
parse the credentials file, then the config file, each only when it
exists; an unreadable file aborts with the context message, leaving the
registry mutations made so far in place. The returned pair is the
registry state and the error, `none` on success. -/
def load_profiles (reg : Registry) (creds config : FileInput) :
    Registry × Option String :=
  let reg1 := Registry.insert reg "default"
    { defaultAwsProfile with name := "default", profile_type := ProfileType.Default }
  match creds with
  | FileInput.unreadable => (reg1, some "Failed to parse AWS credentials file")
  | FileInput.absent =>
    match config with
    | FileInput.unreadable => (reg1, some "Failed to parse AWS config file")
    | FileInput.absent => (reg1, none)
    | FileInput.content c => (parse_config_file reg1 c, none)
  | FileInput.content s =>
    let reg2 := parse_credentials_file reg1 s
    match config with
    | FileInput.unreadable => (reg2, some "Failed to parse AWS config file")
    | FileInput.absent => (reg2, none)
    | FileInput.content c => (parse_config_file reg2 c, none)

/-- `reload`: clear the registry, run `load_profiles` on the empty
registry, and run `validate_all_profiles` only when the load succeeded
(`?` returns early on error, leaving the partial registry). -/
def reload (_prior : Registry) (creds config : FileInput) :
    Registry × Option String :=
  let r := load_profiles [] creds config
  match r.2 with
  | some e => (r.1, some e)
  | none => (validate_all_profiles r.1, none)

/-- Does `msg` mention `field` as a substring? Used to state what an
error message names. -/
def namesField (msg field : String) : Bool :=
  decide ((msg.toList.tails.filter (fun t => List.isPrefixOf field.toList t)) ≠ [])

/-- The list of registry keys. -/
def regKeys (reg : Registry) : List String :=
  reg.map Prod.fst

/-- The number of registry keys not yet on the visited path: the
decreasing measure of the chain walk. -/
def notVisitedCount (reg : Registry) (visited : List String) : Nat :=
  ((regKeys reg).filter (fun k => !(visited.contains k))).length

/-- The spec's wording of classification (spec 4.3): an ordered
precedence list of condition/variant pairs, first match wins, with
`Unknown` as the fallback when no condition matches. -/
def classifySpec (name : String) (p : AwsProfile) : ProfileType :=
  ((([ (p.sso_start_url.isSome || p.sso_session.isSome
          || (p.sso_account_id.isSome && p.sso_role_name.isSome), ProfileType.Sso),
       (p.role_arn.isSome, ProfileType.AssumeRole),
       (p.has_static_credentials, ProfileType.StaticCredentials),
       (p.credential_source.isSome, ProfileType.Environment),
       (name == "default", ProfileType.Default) ] : List (Bool × ProfileType)).find?
      (fun e => e.1)).map (fun e => e.2)).getD ProfileType.Unknown

/-- Fixture: an SSO profile carrying only `sso_start_url`. -/
def ssoStartOnly : AwsProfile :=
  { defaultAwsProfile with name := "incomplete-sso", sso_start_url := some "https://my-sso.awsapps.com/start" }

/-- Fixture: an SSO profile carrying only `sso_session`, with both
`sso_account_id` and `sso_role_name` missing. -/
def ssoSessionBothMissing : AwsProfile :=
  { defaultAwsProfile with name := "session-sso", sso_session := some "my-session" }

/-- Fixture: the circular chain `profile-a -> profile-b -> profile-c -> profile-a`. -/
def regABC : Registry :=
  [("profile-a", { defaultAwsProfile with
      name := "profile-a"
      role_arn := some "arn:aws:iam::111:role/A"
      source_profile := some "profile-b" }),
   ("profile-b", { defaultAwsProfile with
      name := "profile-b"
      role_arn := some "arn:aws:iam::222:role/B"
      source_profile := some "profile-c" }),
   ("profile-c", { defaultAwsProfile with
      name := "profile-c"
      role_arn := some "arn:aws:iam::333:role/C"
      source_profile := some "profile-a" })]

/-- Fixture: a profile with no credentials, no source, no special name. -/
def plainProfile : AwsProfile :=
  { defaultAwsProfile with name := "plain" }

/-- Fixture: an assume-role profile whose chain ends at `plainProfile`,
which matches no termination condition and has no further reference. -/
def regLeaf : Registry :=
  [("leaf-chain", { defaultAwsProfile with
      name := "leaf-chain"
      role_arn := some "arn:aws:iam::444:role/L"
      source_profile := some "plain" }),
   ("plain", plainProfile)]

/-- Fixture: an assume-role-shaped profile for the classification claim. -/
def xProfile : AwsProfile :=
  { defaultAwsProfile with name := "x", role_arn := some "arn:aws:iam::5:role/X" }

/-- Fixture: a one-profile registry for the classification claim. -/
def regC2 : Registry :=
  [("x", xProfile)]

/-- Fixture: a registry holding only the incomplete SSO profile. -/
def c8reg : Registry :=
  [("incomplete-sso", ssoStartOnly)]

/-- The entry `validate_all_profiles` produces from `c8reg`. -/
def c8entry : String × AwsProfile :=
  ("incomplete-sso",
    { ssoStartOnly with
        profile_type := ProfileType.Sso
        is_valid := false
        error_message := some "SSO profile missing: sso_region, sso_account_id, sso_role_name" })

/-- Fixture: a prior registry state, to be discarded by `reload`. -/
def regPrior : Registry :=
  [("old", { defaultAwsProfile with name := "old" })]

/-- The record `load_profiles` inserts unconditionally under `default`. -/
def defaultLoadedProfile : AwsProfile :=
  { defaultAwsProfile with name := "default", profile_type := ProfileType.Default }

/-! ## Registry lookup lemmas -/

theorem lookup_append (n : String) (l1 l2 : Registry) :
    List.lookup n (l1 ++ l2)
      = match List.lookup n l1 with
        | some v => some v
        | none => List.lookup n l2 := by
  induction l1 with
  | nil => simp [List.lookup]
  | cons a t ih =>
    by_cases h : n == a.1 <;> simp [List.lookup, h, ih]

theorem lookup_isSome_map_cond (reg : Registry) (n m : String)
    (g : String × AwsProfile → AwsProfile) :
    (List.lookup n (reg.map (fun e => if e.1 == m then (e.1, g e) else e))).isSome
      = (List.lookup n reg).isSome := by
  induction reg with
  | nil => simp [List.lookup]
  | cons a t ih =>
    simp only [List.map_cons]
    by_cases h : (a.1 == m) = true
    · rw [if_pos h]
      cases h2 : (n == a.1) with
      | true => simp [List.lookup, h2]
      | false =>
        simp only [List.lookup, h2]
        exact ih
    · rw [if_neg h]
      cases h2 : (n == a.1) with
      | true => simp [List.lookup, h2]
      | false =>
        simp only [List.lookup, h2]
        exact ih

theorem lookup_update_isSome (reg : Registry) (n m : String) (f : AwsProfile → AwsProfile) :
    (List.lookup n (Registry.update reg m f)).isSome = (List.lookup n reg).isSome := by
  unfold Registry.update
  exact lookup_isSome_map_cond reg n m (fun e => f e.2)

theorem lookup_self_append_single (reg : Registry) (n : String) (p : AwsProfile)
    (h : List.lookup n reg = none) :
    List.lookup n (reg ++ [(n, p)]) = some p := by
  rw [lookup_append, h]
  simp [List.lookup]

theorem lookup_insert_self_isSome (reg : Registry) (n : String) (p : AwsProfile) :
    (List.lookup n (Registry.insert reg n p)).isSome = true := by
  unfold Registry.insert
  by_cases h : (List.lookup n reg).isSome = true
  · rw [if_pos h]
    rw [lookup_isSome_map_cond reg n n (fun _ => p)]
    exact h
  · rw [if_neg h]
    rcases h5 : List.lookup n reg with _ | v
    · rw [lookup_self_append_single reg n p h5]
      rfl
    · exact absurd (by rw [h5]; rfl) h

theorem lookup_insertIfAbsent_self_isSome (reg : Registry) (n : String) (p : AwsProfile) :
    (List.lookup n (Registry.insertIfAbsent reg n p)).isSome = true := by
  unfold Registry.insertIfAbsent
  by_cases h : (List.lookup n reg).isSome = true
  · rw [if_pos h]
    exact h
  · rw [if_neg h]
    rcases h5 : List.lookup n reg with _ | v
    · rw [lookup_self_append_single reg n p h5]
      rfl
    · exact absurd (by rw [h5]; rfl) h

theorem lookup_insertIfAbsent_isSome_of (reg : Registry) (n m : String) (p : AwsProfile)
    (h : (List.lookup n reg).isSome = true) :
    (List.lookup n (Registry.insertIfAbsent reg m p)).isSome = true := by
  unfold Registry.insertIfAbsent
  by_cases h2 : (List.lookup m reg).isSome = true
  · rw [if_pos h2]
    exact h
  · rw [if_neg h2]
    rw [lookup_append]
    rcases h5 : List.lookup n reg with _ | v
    · rw [h5] at h
      simp at h
    · simp

/-! ## Parser preservation lemmas -/

theorem credFinalize_preserves (reg : Registry) (current : Option String)
    (hak hsk : Bool) (n : String) (h : (List.lookup n reg).isSome = true) :
    (List.lookup n (credFinalize reg current hak hsk)).isSome = true := by
  unfold credFinalize
  split
  · split
    · rw [lookup_update_isSome]
      exact h
    · exact h
  · exact h

theorem parse_config_lines_preserves (lines : List (List Char)) :
    ∀ (reg : Registry) (current : Option String) (n : String),
      (List.lookup n reg).isSome = true →
      (List.lookup n (parse_config_lines reg current lines)).isSome = true := by
  induction lines with
  | nil =>
    intro reg current n h
    exact h
  | cons l rest ih =>
    intro reg current n h
    unfold parse_config_lines
    split
    · exact ih reg current n h
    · split
      · split
        · exact ih _ _ n (lookup_insertIfAbsent_isSome_of reg n _ _ h)
        · exact ih reg none n h
      · split
        · split
          · apply ih _ _ n
            rw [lookup_update_isSome]
            exact h
          · exact ih reg _ n h
        · exact ih reg current n h

theorem parse_credentials_lines_preserves (lines : List (List Char)) :
    ∀ (reg : Registry) (current : Option String) (hak hsk : Bool) (n : String),
      (List.lookup n reg).isSome = true →
      (List.lookup n (parse_credentials_lines reg current hak hsk lines)).isSome = true := by
  induction lines with
  | nil =>
    intro reg current hak hsk n h
    exact credFinalize_preserves reg current hak hsk n h
  | cons l rest ih =>
    intro reg current hak hsk n h
    unfold parse_credentials_lines
    split
    · exact ih reg current hak hsk n h
    · split
      · apply ih _ _ false false n
        apply lookup_insertIfAbsent_isSome_of
        exact credFinalize_preserves reg current hak hsk n h
      · split
        · split
          · exact ih reg current true hsk n h
          · split
            · exact ih reg current hak true n h
            · exact ih reg current hak hsk n h
        · exact ih reg current hak hsk n h

theorem parse_config_file_preserves (reg : Registry) (content : String) (n : String)
    (h : (List.lookup n reg).isSome = true) :
    (List.lookup n (parse_config_file reg content)).isSome = true := by
  unfold parse_config_file
  exact parse_config_lines_preserves _ reg none n h

theorem parse_credentials_file_preserves (reg : Registry) (content : String) (n : String)
    (h : (List.lookup n reg).isSome = true) :
    (List.lookup n (parse_credentials_file reg content)).isSome = true := by
  unfold parse_credentials_file
  exact parse_credentials_lines_preserves _ reg none false false n h

/-- Core of the `default`-presence invariant: after any `load_profiles`
run, successful or not, `default` is in the registry. -/
theorem load_profiles_default_isSome (reg : Registry) (creds config : FileInput) :
    (List.lookup "default" (load_profiles reg creds config).1).isSome = true := by
  have hbase := lookup_insert_self_isSome reg "default"
    { defaultAwsProfile with name := "default", profile_type := ProfileType.Default }
  cases creds with
  | unreadable => exact hbase
  | absent =>
    cases config with
    | unreadable => exact hbase
    | absent => exact hbase
    | content c => exact parse_config_file_preserves _ c "default" hbase
  | content s =>
    cases config with
    | unreadable => exact parse_credentials_file_preserves _ s "default" hbase
    | absent => exact parse_credentials_file_preserves _ s "default" hbase
    | content c =>
      exact parse_config_file_preserves _ c "default"
        (parse_credentials_file_preserves _ s "default" hbase)

/-! ## Validation result lemmas -/

theorem validate_sso_profile_snd_isSome (p : AwsProfile) :
    (validate_sso_profile p).1 = false → ((validate_sso_profile p).2).isSome = true := by
  unfold validate_sso_profile
  split
  · split
    · intro _
      rfl
    · split
      · intro _
        rfl
      · intro h
        simp at h
  · split
    · intro h
      simp at h
    · intro _
      rfl

theorem validate_assume_role_profile_snd_isSome (reg : Registry) (p : AwsProfile) :
    (validate_assume_role_profile reg p).1 = false →
      ((validate_assume_role_profile reg p).2).isSome = true := by
  unfold validate_assume_role_profile
  split
  · intro _
    rfl
  · split
    · intro _
      rfl
    · split
      · split
        · intro h
          simp at h
        · intro _
          rfl
      · intro h
        simp at h

theorem validate_profile_snd_isSome (reg : Registry) (name : String) :
    (validate_profile reg name).1 = false →
      ((validate_profile reg name).2).isSome = true := by
  unfold validate_profile
  split
  · intro _
    rfl
  · split
    · exact validate_sso_profile_snd_isSome _
    · exact validate_assume_role_profile_snd_isSome _ _
    · intro h
      simp at h
    · intro h
      simp at h
    · intro h
      simp at h
    · intro _
      rfl

/-! ## Chain walk termination -/

theorem mem_regKeys_of_lookup (reg : Registry) (n : String) (p : AwsProfile)
    (h : List.lookup n reg = some p) : n ∈ regKeys reg := by
  induction reg with
  | nil => simp [List.lookup] at h
  | cons a t ih =>
    cases h2 : (n == a.1) with
    | true =>
      have h3 : n = a.1 := by
        rwa [beq_iff_eq] at h2
      simp [regKeys, h3]
    | false =>
      simp only [List.lookup, h2] at h
      simp only [regKeys, List.map_cons, List.mem_cons]
      exact Or.inr (ih h)

theorem filter_length_lt {α : Type} (l : List α) (p q : α → Bool)
    (himp : ∀ a, q a = true → p a = true) (x : α)
    (hx : x ∈ l) (hpx : p x = true) (hqx : q x = false) :
    (l.filter q).length < (l.filter p).length := by
  induction l with
  | nil => simp at hx
  | cons a t ih =>
    rcases List.mem_cons.mp hx with rfl | hx2
    · rw [List.filter_cons, List.filter_cons, hpx, hqx]
      have hmono : (List.filter q t).length ≤ (List.filter p t).length :=
        List.Sublist.length_le (List.monotone_filter_right t himp)
      simpa using Nat.lt_succ_of_le hmono
    · rw [List.filter_cons, List.filter_cons]
      cases hqa : q a with
      | true =>
        rw [himp a hqa]
        simpa using Nat.succ_lt_succ (ih hx2)
      | false =>
        cases hpa : p a with
        | true =>
          simpa using Nat.lt_succ_of_lt (ih hx2)
        | false =>
          simpa using ih hx2

theorem notVisitedCount_push (reg : Registry) (visited : List String) (current : String)
    (hmem : current ∈ regKeys reg) (hnv : visited.contains current = false) :
    notVisitedCount reg (visited ++ [current]) < notVisitedCount reg visited := by
  unfold notVisitedCount
  apply filter_length_lt (regKeys reg)
    (fun k => !(visited.contains k)) (fun k => !((visited ++ [current]).contains k))
    ?imp current hmem ?px ?qx
  case imp =>
    intro a ha
    simp only [Bool.not_eq_true'] at ha ⊢
    simp only [List.contains, List.elem_eq_mem, decide_eq_false_iff_not,
      List.mem_append] at ha ⊢
    exact fun hm => ha (Or.inl hm)
  case px =>
    show (!(visited.contains current)) = true
    rw [hnv]
    rfl
  case qx =>
    show (!((visited ++ [current]).contains current)) = false
    simp [List.contains, List.elem_eq_mem]

theorem chain_fuel_isSome (reg : Registry) :
    ∀ (fuel : Nat) (visited : List String) (current : String),
      notVisitedCount reg visited < fuel →
      (validate_assume_role_chain_fuel reg fuel visited current).isSome = true := by
  intro fuel
  induction fuel with
  | zero =>
    intro visited current h
    exact absurd h (Nat.not_lt_zero _)
  | succ f ih =>
    intro visited current h
    unfold validate_assume_role_chain_fuel
    by_cases hnv : visited.contains current = true
    · rw [if_pos hnv]
      rfl
    · rw [if_neg hnv]
      cases hl : List.lookup current reg with
      | none => rfl
      | some profile =>
        dsimp only
        by_cases h1 : profile.has_static_credentials = true
        · rw [if_pos h1]
          rfl
        · rw [if_neg h1]
          by_cases h2 : (profile.profile_type == ProfileType.Sso) = true
          · rw [if_pos h2]
            rfl
          · rw [if_neg h2]
            by_cases h3 : profile.credential_source.isSome = true
            · rw [if_pos h3]
              rfl
            · rw [if_neg h3]
              by_cases h4 : (current == "default") = true
              · rw [if_pos h4]
                rfl
              · rw [if_neg h4]
                cases hsp : profile.source_profile with
                | none => rfl
                | some next =>
                  show (validate_assume_role_chain_fuel reg f (visited ++ [current]) next).isSome = true
                  apply ih
                  have hdec := notVisitedCount_push reg visited current
                    (mem_regKeys_of_lookup reg current profile hl)
                    (by simpa using hnv)
                  omega

/-! ## Claim theorems -/

/-- C1 counterexample: with `sso_session` set and both `sso_account_id`
and `sso_role_name` missing, validation records a message naming only
`sso_account_id`; it does not name the missing `sso_role_name`, so the
message does not name every missing field. -/
theorem sso_session_message_counterexample :
    ssoSessionBothMissing.sso_account_id = none
    ∧ ssoSessionBothMissing.sso_role_name = none
    ∧ validate_sso_profile ssoSessionBothMissing
        = (false, some "SSO profile missing sso_account_id")
    ∧ namesField "SSO profile missing sso_account_id" "sso_role_name" = false := by
  decide

/-- C1 (amended): in the legacy path (no `sso_session`) a failing SSO
profile's message names every missing field, comma-joined - in
particular the start-url-only profile's message names exactly
`sso_region, sso_account_id, sso_role_name`; in the session path with
`sso_account_id` missing the message names only `sso_account_id`, even
when `sso_role_name` is missing as well. -/
theorem sso_missing_fields_message (p q : AwsProfile)
    (hp : p.sso_session = none) (hm : (ssoMissingFields p).isEmpty = false)
    (hq : q.sso_session.isSome = true) (hqa : q.sso_account_id.isNone = true) :
    validate_sso_profile p
        = (false, some ("SSO profile missing: "
            ++ String.intercalate ", " (ssoMissingFields p)))
    ∧ validate_sso_profile q = (false, some "SSO profile missing sso_account_id")
    ∧ validate_sso_profile ssoStartOnly
        = (false, some "SSO profile missing: sso_region, sso_account_id, sso_role_name") := by
  refine ⟨?_, ?_, by decide⟩
  · unfold validate_sso_profile
    rw [if_neg (by simp [hp]), if_neg (by simp [hm])]
  · unfold validate_sso_profile
    rw [if_pos hq, if_pos hqa]

theorem sso_missing_fields_message_witness :
    validate_sso_profile ssoStartOnly
        = (false, some ("SSO profile missing: "
            ++ String.intercalate ", " (ssoMissingFields ssoStartOnly)))
    ∧ validate_sso_profile ssoSessionBothMissing
        = (false, some "SSO profile missing sso_account_id")
    ∧ validate_sso_profile ssoStartOnly
        = (false, some "SSO profile missing: sso_region, sso_account_id, sso_role_name") :=
  sso_missing_fields_message ssoStartOnly ssoSessionBothMissing
    (by decide) (by decide) (by decide) (by decide)

/-- C2: for every profile present in the registry,
`determine_profile_type` computes exactly the spec's ordered precedence
list with first match winning (`classifySpec`), whose fallback is
`Unknown`, so every profile receives exactly one variant. -/
theorem determine_profile_type_matches_spec (reg : Registry) (name : String)
    (p : AwsProfile) (h : List.lookup name reg = some p) :
    determine_profile_type reg name = classifySpec name p := by
  unfold determine_profile_type classifySpec
  rw [h]
  by_cases h1 : (p.sso_start_url.isSome || p.sso_session.isSome
      || (p.sso_account_id.isSome && p.sso_role_name.isSome)) = true <;>
    by_cases h2 : p.role_arn.isSome = true <;>
    by_cases h3 : p.has_static_credentials = true <;>
    by_cases h4 : p.credential_source.isSome = true <;>
    by_cases h5 : (name == "default") = true <;>
    simp [List.find?, h1, h2, h3, h4, h5]

theorem determine_profile_type_matches_spec_witness :
    determine_profile_type regC2 "x" = classifySpec "x" xProfile :=
  determine_profile_type_matches_spec regC2 "x" xProfile (by decide)

/-- C3: at each chain step, a next name already on the visited path
fails with the circular-dependency message listing the full visited
path, and a next name absent from the registry fails with the
source-profile-not-found message; the concrete chain
`profile-a -> profile-b -> profile-c -> profile-a` leaves the profile
the walk starts from invalid with the circular-dependency error. -/
theorem chain_error_messages (reg1 reg2 : Registry) (v1 v2 : List String)
    (c1 c2 : String) (f1 f2 : Nat)
    (h1 : v1.contains c1 = true)
    (h2 : v2.contains c2 = false) (h3 : List.lookup c2 reg2 = none) :
    validate_assume_role_chain_fuel reg1 (f1 + 1) v1 c1
        = some (Except.error ("Circular dependency in assume-role chain: "
            ++ String.intercalate " -> " v1 ++ " -> " ++ c1))
    ∧ validate_assume_role_chain_fuel reg2 (f2 + 1) v2 c2
        = some (Except.error ("Source profile \x27" ++ c2 ++ "\x27 not found"))
    ∧ (List.lookup "profile-a" (validate_all_profiles regABC)).map
        (fun p => (p.is_valid, p.error_message))
        = some (false, some "Circular dependency in assume-role chain: profile-a -> profile-b -> profile-c -> profile-a") := by
  refine ⟨?_, ?_, by decide⟩
  · unfold validate_assume_role_chain_fuel
    rw [if_pos h1]
  · unfold validate_assume_role_chain_fuel
    rw [if_neg (by simpa using h2), h3]

theorem chain_error_messages_witness :
    validate_assume_role_chain_fuel [] (0 + 1) ["a"] "a"
        = some (Except.error ("Circular dependency in assume-role chain: "
            ++ String.intercalate " -> " ["a"] ++ " -> " ++ "a"))
    ∧ validate_assume_role_chain_fuel [] (0 + 1) [] "b"
        = some (Except.error ("Source profile \x27" ++ "b" ++ "\x27 not found"))
    ∧ (List.lookup "profile-a" (validate_all_profiles regABC)).map
        (fun p => (p.is_valid, p.error_message))
        = some (false, some "Circular dependency in assume-role chain: profile-a -> profile-b -> profile-c -> profile-a") :=
  chain_error_messages [] [] ["a"] [] "a" "b" 0 0 (by decide) (by decide) (by decide)

/-- C4: for every finite registry and every start and source name the
chain walk terminates: fuel `reg.length + 1` never runs out, and the
fuelled loop returns exactly the verdict `validate_assume_role_chain`
reports. -/
theorem chain_walk_terminates (reg : Registry) (start source : String) :
    validate_assume_role_chain_fuel reg (reg.length + 1) [start] source
      = some (validate_assume_role_chain reg start source) := by
  have hs : (validate_assume_role_chain_fuel reg (reg.length + 1) [start] source).isSome = true := by
    apply chain_fuel_isSome
    have h1 : notVisitedCount reg [start] ≤ (regKeys reg).length :=
      List.length_filter_le _ _
    have h2 : (regKeys reg).length = reg.length := List.length_map _ _
    omega
  rcases ho : validate_assume_role_chain_fuel reg (reg.length + 1) [start] source with _ | r
  · rw [ho] at hs
    simp at hs
  · unfold validate_assume_role_chain
    rw [ho]
    rfl

/-- C5: a chain step reaching a profile that exists in the registry, has
no static credentials, is not classified SSO, has no credential_source,
is not named `default`, and has no source_profile of its own accepts the
chain (permissive fallback); concretely the assume-role profile
`leaf-chain`, whose chain ends at the bare profile `plain`, is marked
valid by `validate_all_profiles`. -/
theorem chain_permissive_fallback (reg : Registry) (visited : List String)
    (current : String) (p : AwsProfile) (fuel : Nat)
    (hnv : visited.contains current = false)
    (hl : List.lookup current reg = some p)
    (h1 : p.has_static_credentials = false)
    (h2 : p.profile_type ≠ ProfileType.Sso)
    (h3 : p.credential_source = none)
    (h4 : current ≠ "default")
    (h5 : p.source_profile = none) :
    validate_assume_role_chain_fuel reg (fuel + 1) visited current = some (Except.ok ())
    ∧ (List.lookup "leaf-chain" (validate_all_profiles regLeaf)).map
        (fun q => (q.is_valid, q.error_message)) = some (true, none) := by
  refine ⟨?_, by decide⟩
  unfold validate_assume_role_chain_fuel
  rw [if_neg (by simpa using hnv), hl]
  dsimp only
  rw [if_neg (by simp [h1]), if_neg (by simp [h2]), if_neg (by simp [h3]),
    if_neg (by simp [h4]), h5]

theorem chain_permissive_fallback_witness :
    validate_assume_role_chain_fuel regLeaf (0 + 1) ["leaf-chain"] "plain"
        = some (Except.ok ())
    ∧ (List.lookup "leaf-chain" (validate_all_profiles regLeaf)).map
        (fun q => (q.is_valid, q.error_message)) = some (true, none) :=
  chain_permissive_fallback regLeaf ["leaf-chain"] "plain" plainProfile 0
    (by decide) (by decide) (by decide) (by decide) (by decide) (by decide) (by decide)

/-- C6: `validate_sso_profile` (the check run for every profile
classified SSO) succeeds, when `sso_session` is set, exactly when both
`sso_account_id` and `sso_role_name` are set (start URL and region not
required); without `sso_session`, exactly when all four legacy fields
are set. -/
theorem sso_validation_iff (p q : AwsProfile)
    (hp : p.sso_session.isSome = true) (hq : q.sso_session = none) :
    ((validate_sso_profile p).1 = true
        ↔ (p.sso_account_id.isSome = true ∧ p.sso_role_name.isSome = true))
    ∧ ((validate_sso_profile q).1 = true
        ↔ (q.sso_start_url.isSome = true ∧ q.sso_region.isSome = true
            ∧ q.sso_account_id.isSome = true ∧ q.sso_role_name.isSome = true)) := by
  constructor
  · unfold validate_sso_profile
    rw [if_pos hp]
    rcases ha : p.sso_account_id with _ | xa <;>
      rcases hr : p.sso_role_name with _ | xr <;>
      simp [ha, hr]
  · unfold validate_sso_profile
    rw [if_neg (by simp [hq])]
    rcases h1 : q.sso_start_url with _ | x1 <;>
      rcases h2 : q.sso_region with _ | x2 <;>
      rcases h3 : q.sso_account_id with _ | x3 <;>
      rcases h4 : q.sso_role_name with _ | x4 <;>
      simp [ssoMissingFields, h1, h2, h3, h4]

theorem sso_validation_iff_witness :
    ((validate_sso_profile ssoSessionBothMissing).1 = true
        ↔ (ssoSessionBothMissing.sso_account_id.isSome = true
            ∧ ssoSessionBothMissing.sso_role_name.isSome = true))
    ∧ ((validate_sso_profile ssoStartOnly).1 = true
        ↔ (ssoStartOnly.sso_start_url.isSome = true ∧ ssoStartOnly.sso_region.isSome = true
            ∧ ssoStartOnly.sso_account_id.isSome = true
            ∧ ssoStartOnly.sso_role_name.isSome = true)) :=
  sso_validation_iff ssoSessionBothMissing ssoStartOnly (by decide) (by decide)

/-- C7: after every load - both files absent, a file unreadable, or file
contents parsed - the registry contains a profile named `default`,
because that record is inserted unconditionally before either file is
read. -/
theorem default_profile_always_present (reg : Registry) (creds config : FileInput) :
    (List.lookup "default" (load_profiles reg creds config).1).isSome = true :=
  load_profiles_default_isSome reg creds config

/-- C8: every entry of the registry produced by `validate_all_profiles`
that is marked invalid carries an error message. -/
theorem invalid_implies_error_message (reg : Registry) (e : String × AwsProfile)
    (he : e ∈ validate_all_profiles reg) (hv : e.2.is_valid = false) :
    e.2.error_message.isSome = true := by
  unfold validate_all_profiles setValidity at he
  rcases List.mem_map.mp he with ⟨a, ha, rfl⟩
  dsimp only at hv ⊢
  exact validate_profile_snd_isSome _ _ hv

theorem invalid_implies_error_message_witness :
    c8entry.2.error_message.isSome = true :=
  invalid_implies_error_message c8reg c8entry (by decide) (by decide)

/-- C9 counterexample: when `reload` hits a failing config-file read,
the registry is not left empty - starting from a prior registry holding
`old`, the result holds the unconditionally inserted `default` record
(and nothing of the prior state). -/
theorem reload_not_left_empty_counterexample :
    (reload regPrior FileInput.absent FileInput.unreadable).1
        = [("default", defaultLoadedProfile)]
    ∧ (reload regPrior FileInput.absent FileInput.unreadable).1 ≠ [] := by
  decide

/-- C9 (amended): `reload` clears the registry entirely before
re-parsing; when the second (config) file read fails, the registry is
left exactly as the fresh load into an empty registry produced it - the
default profile plus anything the credentials file contributed - with
the error reported and no prior contents restored. -/
theorem reload_clears_then_fills (prior : Registry) (creds : FileInput) :
    (reload prior creds FileInput.unreadable).1
        = (load_profiles [] creds FileInput.unreadable).1
    ∧ (List.lookup "default" (reload prior creds FileInput.unreadable).1).isSome = true
    ∧ (reload prior creds FileInput.unreadable).2.isSome = true := by
  refine ⟨?_, ?_, ?_⟩
  · cases creds <;> rfl
  · have h := load_profiles_default_isSome [] creds FileInput.unreadable
    cases creds <;> exact h
  · cases creds <;> rfl

theorem isSkippedLine_false_of_header (l : List Char) (h : isHeaderLine l = true) :
    isSkippedLine l = false := by
  cases l with
  | nil => simp [isHeaderLine] at h
  | cons a t =>
    have ha : a = Char.ofNat 91 := by
      unfold isHeaderLine at h
      rw [Bool.and_eq_true] at h
      have h1 := h.1
      simp [List.head?] at h1
      exact h1
    subst ha
    have h35 : ("#".toList) = [Char.ofNat 35] := rfl
    have h59 : ((";".toList) : List Char) = [Char.ofNat 59] := rfl
    unfold isSkippedLine
    rw [h35, h59]
    simp [List.isPrefixOf]

theorem parse_config_lines_no_headers (ls : List (List Char)) :
    ∀ (reg : Registry) (rest : List (List Char)),
      (∀ x ∈ ls, isHeaderLine (trimChars x) = false) →
      parse_config_lines reg none (ls ++ rest) = parse_config_lines reg none rest := by
  induction ls with
  | nil =>
    intro reg rest _
    rfl
  | cons l t ih =>
    intro reg rest hnh
    have hl : isHeaderLine (trimChars l) = false := hnh l (List.mem_cons_self l t)
    have ht : ∀ x ∈ t, isHeaderLine (trimChars x) = false :=
      fun x hx => hnh x (List.mem_cons_of_mem l hx)
    show parse_config_lines reg none (l :: (t ++ rest)) = parse_config_lines reg none rest
    conv_lhs => unfold parse_config_lines
    by_cases hskip : isSkippedLine (trimChars l) = true
    · rw [if_pos hskip]
      exact ih reg rest ht
    · rw [if_neg hskip, if_neg (by simp [hl])]
      cases hkv : splitOnceChar (Char.ofNat 61) (trimChars l) with
      | some kv => exact ih reg rest ht
      | none => exact ih reg rest ht

theorem parse_config_lines_header_unrecognized (reg : Registry) (current : Option String)
    (l : List Char) (rest : List (List Char))
    (hhead : isHeaderLine (trimChars l) = true)
    (hsec : configSectionName (((trimChars l).drop 1).dropLast) = none) :
    parse_config_lines reg current (l :: rest) = parse_config_lines reg none rest := by
  conv_lhs => unfold parse_config_lines
  rw [if_neg (by simp [isSkippedLine_false_of_header _ hhead]), if_pos hhead, hsec]

theorem parse_credentials_header_creates (reg : Registry) (current : Option String)
    (hak hsk : Bool) (l : List Char) (rest : List (List Char))
    (hhead : isHeaderLine (trimChars l) = true) :
    (List.lookup ((((trimChars l).drop 1).dropLast).asString)
        (parse_credentials_lines reg current hak hsk (l :: rest))).isSome = true := by
  unfold parse_credentials_lines
  rw [if_neg (by simp [isSkippedLine_false_of_header _ hhead]), if_pos hhead]
  apply parse_credentials_lines_preserves
  exact lookup_insertIfAbsent_self_isSome _ _ _

/-- C10: in the config file, a section header recognized as neither
`[default]` nor `[profile NAME]` nor an sso-session header (for example
a bare `[NAME]`, whose section name `configSectionName` maps to `none`)
creates no profile record, and every key/value line under it - any block
of non-header lines whatsoever - is ignored entirely, leaving the
registry unchanged; likewise any non-header lines before the first
recognized header are ignored; in the credentials file, by contrast,
every section header - bare `[NAME]` included - creates a record under
the bracketed name. The bare `[myname]` header is such an unrecognized
config header, as the closing concrete conjuncts illustrate. -/
theorem bare_header_handling :
    (∀ (reg : Registry) (current : Option String) (l : List Char)
        (ls rest : List (List Char)),
        isHeaderLine (trimChars l) = true →
        configSectionName (((trimChars l).drop 1).dropLast) = none →
        (∀ x ∈ ls, isHeaderLine (trimChars x) = false) →
        parse_config_lines reg current (l :: (ls ++ rest)) = parse_config_lines reg none rest)
    ∧ (∀ (reg : Registry) (ls rest : List (List Char)),
        (∀ x ∈ ls, isHeaderLine (trimChars x) = false) →
        parse_config_lines reg none (ls ++ rest) = parse_config_lines reg none rest)
    ∧ (∀ (reg : Registry) (current : Option String) (hak hsk : Bool)
        (l : List Char) (rest : List (List Char)),
        isHeaderLine (trimChars l) = true →
        (List.lookup ((((trimChars l).drop 1).dropLast).asString)
            (parse_credentials_lines reg current hak hsk (l :: rest))).isSome = true)
    ∧ configSectionName ("myname".toList) = none
    ∧ (∀ reg : Registry, parse_config_file reg "[myname]\nregion = eu-west-1" = reg) := by
  refine ⟨?_, ?_, ?_, by decide, fun reg => rfl⟩
  · intro reg current l ls rest hhead hsec hnh
    rw [parse_config_lines_header_unrecognized reg current l (ls ++ rest) hhead hsec]
    exact parse_config_lines_no_headers ls reg rest hnh
  · intro reg ls rest hnh
    exact parse_config_lines_no_headers ls reg rest hnh
  · intro reg current hak hsk l rest hhead
    exact parse_credentials_header_creates reg current hak hsk l rest hhead

theorem bare_header_handling_witness :
    parse_config_lines [] none ("[myname]".toList :: (["region = eu-west-1".toList] ++ []))
        = parse_config_lines [] none []
    ∧ parse_config_lines [] none (["region = us-east-1".toList] ++ ["[profile p]".toList])
        = parse_config_lines [] none ["[profile p]".toList]
    ∧ (List.lookup "myname"
        (parse_credentials_lines [] none false false ["[myname]".toList])).isSome = true :=
  ⟨bare_header_handling.1 [] none ("[myname]".toList) ["region = eu-west-1".toList] []
      (by decide) (by decide) (by decide),
   bare_header_handling.2.1 [] ["region = us-east-1".toList] ["[profile p]".toList] (by decide),
   bare_header_handling.2.2.1 [] none false false ("[myname]".toList) [] (by decide)⟩
